import Mathlib

/-!
Verification of the LunaLock emergency SMS relay server (src/app.js).

The server exposes two business endpoints:
  POST /send-emergency-sms : validates the destination and message fields, normalizes the phone
    number, issues one Twilio `messages.create` call, and maps the outcome
    to a JSON envelope.
  POST /test-sms : validates the destination, sends a fixed diagnostic message with the
    raw (unnormalized) number.

The embedding below models JavaScript strings as Lean `String`s (lists of
characters), JSON response bodies as ordered association lists of JSON
values, and the Twilio client as a function from call arguments to an
outcome.  Timestamps (`new Date().toISOString()`) are threaded in as an
abstract `now` string.
-/

namespace LunaLock

/-- JavaScript string truthiness for an optional field of the parsed JSON
body: `!x` is true exactly when the field is absent (`undefined`) or the
empty string. -/
def jsFalsyStr : Option String → Bool
  | none => true
  | some s => s.isEmpty

/-- Models the regex replace that removes every non-digit character
(the JS expression applying the global non-digit pattern with an empty
replacement). -/
def stripNonDigits («to» : String) : String :=
  ⟨«to».data.filter Char.isDigit⟩

/-- JavaScript `s.startsWith(p)`: `p` is a prefix of the character sequence
of `s`. -/
def jsStartsWith (s p : String) : Bool :=
  p.data.isPrefixOf s.data

/-- The phone-number normalization of the emergency endpoint
(src/app.js lines 42–47): strip non-digits; if exactly 10 digits remain,
prepend the string +1; else, if the STRIPPED string does not start with a
plus sign, prepend a plus sign; else leave the stripped string as-is.
Note that the source applies the startsWith test to the already-stripped
value, not to the original input. -/
def cleanPhoneNumber («to» : String) : String :=
  let cleaned := stripNonDigits «to»
  if cleaned.length = 10 then "+1" ++ cleaned
  else if ¬ jsStartsWith cleaned "+" then "+" ++ cleaned
  else cleaned

/-- A JSON scalar value appearing in a response body. -/
inductive JsonVal where
  | str (s : String)
  | num (n : Int)
  | bool (b : Bool)
  deriving Repr, DecidableEq

/-- The argument object of `client.messages.create({body, from, «to»})`. -/
structure MessageCreateArgs where
  body : String
  «from» : String
  «to» : String
  deriving Repr, DecidableEq

/-- A successful Twilio result: the fields the handler reads. -/
structure ProviderSuccess where
  sid : String
  status : String
  deriving Repr, DecidableEq

/-- A Twilio error object: `message` is always a string; `code` is a number
when present (`undefined` otherwise). -/
structure ProviderError where
  message : String
  code : Option Int
  deriving Repr, DecidableEq

/-- Outcome of the awaited `client.messages.create` call: it either
resolves with a result or throws an error. -/
inductive ProviderOutcome where
  | ok (result : ProviderSuccess)
  | err (error : ProviderError)
  deriving Repr, DecidableEq

/-- Models the JS expression taking error.code when truthy and otherwise
the string UNKNOWN_ERROR: the numeric code is kept when it is present and
nonzero (a JS number is falsy exactly when it is 0), otherwise the string
literal is used. -/
def errCodeField : Option Int → JsonVal
  | some c => if c ≠ 0 then JsonVal.num c else JsonVal.str "UNKNOWN_ERROR"
  | none => JsonVal.str "UNKNOWN_ERROR"

/-- What the handler produced for one request: the HTTP status, the JSON
body (ordered field list), and the outbound provider calls it issued. -/
structure EndpointResult where
  status : Nat
  body : List (String × JsonVal)
  calls : List MessageCreateArgs
  deriving Repr, DecidableEq

/-- Parsed JSON body of a POST /send-emergency-sms request; each field is
absent (`undefined`) or a value. -/
structure EmergencyRequest where
  «to» : Option String
  message : Option String
  contactName : Option String
  hasLocation : Option Bool

/-- The POST /send-emergency-sms handler (src/app.js lines 29–91).
`twilioPhoneNumber` is the configured sender number, `provider` the Twilio
client stub, `now` the ISO timestamp produced at response time. -/
def sendEmergencySms (twilioPhoneNumber : String)
    (provider : MessageCreateArgs → ProviderOutcome) (now : String)
    (req : EmergencyRequest) : EndpointResult :=
  if jsFalsyStr req.«to» || jsFalsyStr req.message then
    { status := 400
      body := [("success", JsonVal.bool false),
               ("error", JsonVal.str "Missing required fields: to, message")]
      calls := [] }
  else
    let «to» := req.«to».getD ""
    let message := req.message.getD ""
    let cleaned := cleanPhoneNumber «to»
    let args : MessageCreateArgs :=
      { body := message, «from» := twilioPhoneNumber, «to» := cleaned }
    match provider args with
    | ProviderOutcome.ok result =>
      { status := 200
        body := [("success", JsonVal.bool true),
                 ("messageSid", JsonVal.str result.sid),
                 ("status", JsonVal.str result.status),
                 ("to", JsonVal.str cleaned),
                 ("timestamp", JsonVal.str now)]
        calls := [args] }
    | ProviderOutcome.err error =>
      { status := 500
        body := [("success", JsonVal.bool false),
                 ("error", JsonVal.str error.message),
                 ("code", errCodeField error.code),
                 ("timestamp", JsonVal.str now)]
        calls := [args] }

/-- Parsed JSON body of a POST /test-sms request. -/
structure TestRequest where
  «to» : Option String

/-- The fixed diagnostic message of the test endpoint. -/
def testMessage : String :=
  "🧪 This is a test message from your LunaLock emergency system. If you received this, the SMS integration is working correctly!"

/-- The POST /test-sms handler (src/app.js lines 94–128). -/
def testSms (twilioPhoneNumber : String)
    (provider : MessageCreateArgs → ProviderOutcome)
    (req : TestRequest) : EndpointResult :=
  if jsFalsyStr req.«to» then
    { status := 400
      body := [("success", JsonVal.bool false),
               ("error", JsonVal.str "Phone number required")]
      calls := [] }
  else
    let «to» := req.«to».getD ""
    let args : MessageCreateArgs :=
      { body := testMessage, «from» := twilioPhoneNumber, «to» := «to» }
    match provider args with
    | ProviderOutcome.ok result =>
      { status := 200
        body := [("success", JsonVal.bool true),
                 ("messageSid", JsonVal.str result.sid),
                 ("message", JsonVal.str "Test SMS sent successfully")]
        calls := [args] }
    | ProviderOutcome.err error =>
      { status := 500
        body := [("success", JsonVal.bool false),
                 ("error", JsonVal.str error.message)]
        calls := [args] }

/-! ### Helper lemmas -/

/-- Every character left by `stripNonDigits` is a digit. -/
lemma stripNonDigits_all_digits («to» : String) :
    ∀ c ∈ (stripNonDigits «to»).data, c.isDigit := by
  intro c hc
  exact (List.mem_filter.mp hc).2

/-- The stripped string consists only of digits, so it never starts
with a plus sign. -/
lemma jsStartsWith_stripNonDigits_plus («to» : String) :
    jsStartsWith (stripNonDigits «to») "+" = false := by
  unfold jsStartsWith
  cases h : (stripNonDigits «to»).data with
  | nil => rfl
  | cons a l =>
    have ha : a.isDigit := by
      apply stripNonDigits_all_digits «to»
      rw [h]; exact List.mem_cons_self a l
    have hne : ('+' == a) = false := by
      cases hEq : ('+' == a) with
      | false => rfl
      | true =>
        have : a = '+' := (beq_iff_eq.mp hEq).symm
        subst this
        simp [Char.isDigit] at ha
    show (String.data "+").isPrefixOf (a :: l) = false
    simp [List.isPrefixOf, hne]

lemma string_data_append (a b : String) : (a ++ b).data = a.data ++ b.data :=
  rfl

/-- On any input with exactly 10 stripped digits, normalization prepends
the country code. -/
lemma cleanPhoneNumber_ten (s : String)
    (h : (stripNonDigits s).length = 10) :
    cleanPhoneNumber s = "+1" ++ stripNonDigits s := by
  unfold cleanPhoneNumber
  simp [h]

/-- On any input whose stripped digit count is not 10, the else-if branch
fires (the stripped string never starts with a plus sign), so normalization
prepends a plus sign to the stripped digits. -/
lemma cleanPhoneNumber_non_ten (s : String)
    (h : (stripNonDigits s).length ≠ 10) :
    cleanPhoneNumber s = "+" ++ stripNonDigits s := by
  unfold cleanPhoneNumber
  simp [h, jsStartsWith_stripNonDigits_plus]

lemma isEmpty_false_of_ne (s : String) (h : s ≠ "") : s.isEmpty = false := by
  rw [Bool.eq_false_iff]
  intro hc
  exact h ((String.isEmpty_iff s).mp hc)

/-- A request whose destination or message field is falsy is rejected with
the 400 envelope and no provider call. -/
lemma sendEmergencySms_invalid (tw now : String)
    (provider : MessageCreateArgs → ProviderOutcome) (req : EmergencyRequest)
    (h : (jsFalsyStr req.«to» || jsFalsyStr req.message) = true) :
    sendEmergencySms tw provider now req =
      { status := 400
        body := [("success", JsonVal.bool false),
                 ("error", JsonVal.str "Missing required fields: to, message")]
        calls := [] } := by
  unfold sendEmergencySms
  simp [h]

/-- A validated request issues exactly one provider call, whatever the
provider outcome. -/
lemma sendEmergencySms_calls_eq (tw now t m : String)
    (cn : Option String) (hl : Option Bool)
    (ht : t.isEmpty = false) (hm : m.isEmpty = false)
    (provider : MessageCreateArgs → ProviderOutcome) :
    (sendEmergencySms tw provider now ⟨some t, some m, cn, hl⟩).calls =
      [{ body := m, «from» := tw, «to» := cleanPhoneNumber t }] := by
  unfold sendEmergencySms
  simp only [jsFalsyStr, ht, hm, Bool.or_self, Bool.false_eq_true, if_false,
    Option.getD_some]
  rcases hq : provider { body := m, «from» := tw, «to» := cleanPhoneNumber t }
    with r | e <;> simp [hq]

/-- Shape of the emergency response when the provider call resolves. -/
lemma sendEmergencySms_ok (tw now t m sid st : String)
    (cn : Option String) (hl : Option Bool)
    (ht : t.isEmpty = false) (hm : m.isEmpty = false)
    (provider : MessageCreateArgs → ProviderOutcome)
    (hp : provider { body := m, «from» := tw, «to» := cleanPhoneNumber t } =
      ProviderOutcome.ok ⟨sid, st⟩) :
    sendEmergencySms tw provider now ⟨some t, some m, cn, hl⟩ =
      { status := 200
        body := [("success", JsonVal.bool true),
                 ("messageSid", JsonVal.str sid),
                 ("status", JsonVal.str st),
                 ("to", JsonVal.str (cleanPhoneNumber t)),
                 ("timestamp", JsonVal.str now)]
        calls := [{ body := m, «from» := tw, «to» := cleanPhoneNumber t }] } := by
  unfold sendEmergencySms
  simp [jsFalsyStr, ht, hm, hp]

/-- Shape of the emergency response when the provider call throws. -/
lemma sendEmergencySms_err (tw now t m msg : String) (code : Option Int)
    (cn : Option String) (hl : Option Bool)
    (ht : t.isEmpty = false) (hm : m.isEmpty = false)
    (provider : MessageCreateArgs → ProviderOutcome)
    (hp : provider { body := m, «from» := tw, «to» := cleanPhoneNumber t } =
      ProviderOutcome.err ⟨msg, code⟩) :
    sendEmergencySms tw provider now ⟨some t, some m, cn, hl⟩ =
      { status := 500
        body := [("success", JsonVal.bool false),
                 ("error", JsonVal.str msg),
                 ("code", errCodeField code),
                 ("timestamp", JsonVal.str now)]
        calls := [{ body := m, «from» := tw, «to» := cleanPhoneNumber t }] } := by
  unfold sendEmergencySms
  simp [jsFalsyStr, ht, hm, hp]

/-! ### Claim theorems -/

/-- C2: for every input string whose stripped form has exactly 10 digits,
the emergency-endpoint normalization produces the string +1 followed by
those 10 digits. -/
theorem c2_ten_digit_normalization (s : String)
    (h : (stripNonDigits s).length = 10) :
    cleanPhoneNumber s = "+1" ++ stripNonDigits s :=
  cleanPhoneNumber_ten s h

/-- Witness for C2 at the concrete input with separators. -/
theorem c2_ten_digit_normalization_witness :
    (stripNonDigits "555-123-4567").length = 10 ∧
    cleanPhoneNumber "555-123-4567" = "+15551234567" := by
  refine ⟨by decide, ?_⟩
  rw [c2_ten_digit_normalization "555-123-4567" (by decide)]
  decide

/-- C3: for every input whose stripped digit count is not exactly 10 —
whether or not the original starts with a plus sign — normalization yields
a plus sign followed by the stripped digits, so a leading plus sign in the
input is never duplicated. -/
theorem c3_non_ten_digit_normalization (s : String)
    (h : (stripNonDigits s).length ≠ 10) :
    cleanPhoneNumber s = "+" ++ stripNonDigits s :=
  cleanPhoneNumber_non_ten s h

/-- Witness for C3: a 12-digit number without and with a leading plus sign;
in the second case the plus sign is not duplicated. -/
theorem c3_non_ten_digit_normalization_witness :
    ((stripNonDigits "44 20 7946 0018").length ≠ 10 ∧
      cleanPhoneNumber "44 20 7946 0018" = "+442079460018") ∧
    ((stripNonDigits "+442079460018").length ≠ 10 ∧
      cleanPhoneNumber "+442079460018" = "+442079460018") := by
  constructor
  · refine ⟨by decide, ?_⟩
    rw [c3_non_ten_digit_normalization "44 20 7946 0018" (by decide)]
    decide
  · refine ⟨by decide, ?_⟩
    rw [c3_non_ten_digit_normalization "+442079460018" (by decide)]
    decide

/-- C4 counterexample: the startsWith decision is NOT made on the original
input string.  An original that starts with a plus sign but contains other
non-digit characters, with a stripped digit count other than 10, is not
left unchanged: the code rebuilds it as a plus sign followed by the bare
digits. -/
theorem c4_counterexample :
    jsStartsWith "+1 (555) 123-4567" "+" = true ∧
    (stripNonDigits "+1 (555) 123-4567").length ≠ 10 ∧
    cleanPhoneNumber "+1 (555) 123-4567" ≠ "+1 (555) 123-4567" ∧
    cleanPhoneNumber "+1 (555) 123-4567" = "+15551234567" := by
  decide

/-- C4 amended: the startsWith test is applied to the stripped digit
string, which never starts with a plus sign, so for a non-10-digit input a
plus sign is always prepended to the stripped digits; consequently an
original starting with a plus sign is returned unchanged exactly when its
only non-digit character is that leading plus sign. -/
theorem c4_amended_leave_as_is (s : String)
    (hform : s.data = '+' :: (stripNonDigits s).data)
    (h : (stripNonDigits s).length ≠ 10) :
    cleanPhoneNumber s = s := by
  rw [cleanPhoneNumber_non_ten s h]
  apply String.ext
  rw [string_data_append]
  exact hform.symm

/-- Witness for C4 amended: a plus sign followed by 12 bare digits is left
unchanged. -/
theorem c4_amended_leave_as_is_witness :
    "+442079460018".data = '+' :: (stripNonDigits "+442079460018").data ∧
    (stripNonDigits "+442079460018").length ≠ 10 ∧
    cleanPhoneNumber "+442079460018" = "+442079460018" :=
  ⟨by decide, by decide,
    c4_amended_leave_as_is "+442079460018" (by decide) (by decide)⟩

/-- C1: for every emergency-send request with non-empty destination and
message, when the provider call resolves with sid and status fields the
endpoint responds HTTP 200 with body success true, messageSid = the
provider sid, status = the provider status, to = the normalized phone
number, and the timestamp string generated at response time. -/
theorem c1_success_response (tw now t m sid st : String)
    (cn : Option String) (hl : Option Bool) (ht : t ≠ "") (hm : m ≠ "")
    (provider : MessageCreateArgs → ProviderOutcome)
    (hp : provider { body := m, «from» := tw, «to» := cleanPhoneNumber t } =
      ProviderOutcome.ok ⟨sid, st⟩) :
    (sendEmergencySms tw provider now ⟨some t, some m, cn, hl⟩).status = 200 ∧
    (sendEmergencySms tw provider now ⟨some t, some m, cn, hl⟩).body =
      [("success", JsonVal.bool true),
       ("messageSid", JsonVal.str sid),
       ("status", JsonVal.str st),
       ("to", JsonVal.str (cleanPhoneNumber t)),
       ("timestamp", JsonVal.str now)] := by
  rw [sendEmergencySms_ok tw now t m sid st cn hl
    (isEmpty_false_of_ne t ht) (isEmpty_false_of_ne m hm) provider hp]
  exact ⟨rfl, rfl⟩

/-- Witness for C1: destination 5551234567, stubbed provider returning sid
SM123 and status queued, normalized destination +15551234567. -/
theorem c1_success_response_witness :
    (sendEmergencySms "+15550006666"
        (fun _ => ProviderOutcome.ok ⟨"SM123", "queued"⟩)
        "2026-01-01T00:00:00.000Z"
        ⟨some "5551234567", some "help", none, none⟩).status = 200 ∧
    (sendEmergencySms "+15550006666"
        (fun _ => ProviderOutcome.ok ⟨"SM123", "queued"⟩)
        "2026-01-01T00:00:00.000Z"
        ⟨some "5551234567", some "help", none, none⟩).body =
      [("success", JsonVal.bool true),
       ("messageSid", JsonVal.str "SM123"),
       ("status", JsonVal.str "queued"),
       ("to", JsonVal.str "+15551234567"),
       ("timestamp", JsonVal.str "2026-01-01T00:00:00.000Z")] := by
  have h := c1_success_response "+15550006666" "2026-01-01T00:00:00.000Z"
    "5551234567" "help" "SM123" "queued" none none
    (by decide) (by decide) (fun _ => ProviderOutcome.ok ⟨"SM123", "queued"⟩) rfl
  refine ⟨h.1, ?_⟩
  rw [h.2]
  decide

/-- C5: every emergency-send request whose destination or message field is
absent or empty is answered with HTTP 400, success false and the static
error message; no provider call is needed to produce it. -/
theorem c5_missing_fields_400 (tw now : String)
    (provider : MessageCreateArgs → ProviderOutcome) (req : EmergencyRequest)
    (h : req.«to» = none ∨ req.«to» = some "" ∨
      req.message = none ∨ req.message = some "") :
    (sendEmergencySms tw provider now req).status = 400 ∧
    (sendEmergencySms tw provider now req).body =
      [("success", JsonVal.bool false),
       ("error", JsonVal.str "Missing required fields: to, message")] := by
  have hf : (jsFalsyStr req.«to» || jsFalsyStr req.message) = true := by
    rcases h with h | h | h | h
    · rw [h]; rfl
    · rw [h]; rfl
    · rw [h]; exact Bool.or_true _
    · rw [h]; exact Bool.or_true _
  rw [sendEmergencySms_invalid tw now provider req hf]
  exact ⟨rfl, rfl⟩

/-- Witness for C5: the empty JSON body (both fields absent) yields 400
with success false. -/
theorem c5_missing_fields_400_witness :
    (sendEmergencySms "+15550006666"
        (fun _ => ProviderOutcome.ok ⟨"SM123", "queued"⟩)
        "2026-01-01T00:00:00.000Z" ⟨none, none, none, none⟩).status = 400 ∧
    (sendEmergencySms "+15550006666"
        (fun _ => ProviderOutcome.ok ⟨"SM123", "queued"⟩)
        "2026-01-01T00:00:00.000Z" ⟨none, none, none, none⟩).body =
      [("success", JsonVal.bool false),
       ("error", JsonVal.str "Missing required fields: to, message")] :=
  c5_missing_fields_400 "+15550006666"
    "2026-01-01T00:00:00.000Z"
    (fun _ => ProviderOutcome.ok ⟨"SM123", "queued"⟩)
    ⟨none, none, none, none⟩ (Or.inl rfl)

/-- C6 counterexample: the code field is computed with JS truthiness, not
mere presence.  A provider error whose code is present but equal to 0 is
reported as the string UNKNOWN_ERROR, while the claim as stated requires
the numeric code 0 to be passed through. -/
theorem c6_counterexample :
    (sendEmergencySms "+15550006666"
        (fun _ => ProviderOutcome.err ⟨"Queue overflow", some 0⟩)
        "2026-01-01T00:00:00.000Z"
        ⟨some "5551234567", some "help", none, none⟩).body =
      [("success", JsonVal.bool false),
       ("error", JsonVal.str "Queue overflow"),
       ("code", JsonVal.str "UNKNOWN_ERROR"),
       ("timestamp", JsonVal.str "2026-01-01T00:00:00.000Z")] ∧
    ("code", JsonVal.num 0) ∉
      (sendEmergencySms "+15550006666"
        (fun _ => ProviderOutcome.err ⟨"Queue overflow", some 0⟩)
        "2026-01-01T00:00:00.000Z"
        ⟨some "5551234567", some "help", none, none⟩).body := by
  decide

/-- C6 amended: for valid input, a provider error yields HTTP 500 with the
provider message verbatim and a code field equal to the numeric provider
code when it is present and nonzero, and to the string UNKNOWN_ERROR when
the code is absent or zero (JS falsy). -/
theorem c6_amended_provider_error_response (tw now t m msg : String)
    (code : Option Int) (ht : t ≠ "") (hm : m ≠ "")
    (provider : MessageCreateArgs → ProviderOutcome)
    (hp : provider { body := m, «from» := tw, «to» := cleanPhoneNumber t } =
      ProviderOutcome.err ⟨msg, code⟩) :
    (sendEmergencySms tw provider now ⟨some t, some m, none, none⟩).status = 500 ∧
    (sendEmergencySms tw provider now ⟨some t, some m, none, none⟩).body =
      [("success", JsonVal.bool false),
       ("error", JsonVal.str msg),
       ("code", errCodeField code),
       ("timestamp", JsonVal.str now)] ∧
    (∀ c : Int, code = some c → c ≠ 0 → errCodeField code = JsonVal.num c) ∧
    ((code = none ∨ code = some 0) →
      errCodeField code = JsonVal.str "UNKNOWN_ERROR") := by
  rw [sendEmergencySms_err tw now t m msg code none none
    (isEmpty_false_of_ne t ht) (isEmpty_false_of_ne m hm) provider hp]
  refine ⟨rfl, rfl, ?_, ?_⟩
  · intro c hc hcne
    subst hc
    simp [errCodeField, hcne]
  · rintro (hc | hc) <;> subst hc <;> rfl

/-- Witness for C6 amended: a provider error with code 21211 yields
HTTP 500 and a numeric code field 21211. -/
theorem c6_amended_provider_error_response_witness :
    (sendEmergencySms "+15550006666"
        (fun _ => ProviderOutcome.err ⟨"Invalid phone number", some 21211⟩)
        "2026-01-01T00:00:00.000Z"
        ⟨some "5551234567", some "help", none, none⟩).status = 500 ∧
    (sendEmergencySms "+15550006666"
        (fun _ => ProviderOutcome.err ⟨"Invalid phone number", some 21211⟩)
        "2026-01-01T00:00:00.000Z"
        ⟨some "5551234567", some "help", none, none⟩).body =
      [("success", JsonVal.bool false),
       ("error", JsonVal.str "Invalid phone number"),
       ("code", JsonVal.num 21211),
       ("timestamp", JsonVal.str "2026-01-01T00:00:00.000Z")] := by
  have h := c6_amended_provider_error_response "+15550006666"
    "2026-01-01T00:00:00.000Z" "5551234567" "help" "Invalid phone number"
    (some 21211) (by decide) (by decide)
    (fun _ => ProviderOutcome.err ⟨"Invalid phone number", some 21211⟩) rfl
  refine ⟨h.1, ?_⟩
  rw [h.2.1]
  decide

/-- C7: the test endpoint applies no normalization — the provider call
receives the raw destination string and the fixed diagnostic message —
and on provider success it answers HTTP 200 with exactly success true,
the provider sid and the fixed confirmation message; an absent destination
is answered HTTP 400. -/
theorem c7_test_sms_passthrough (tw t sid st : String) (ht : t ≠ "")
    (provider : MessageCreateArgs → ProviderOutcome)
    (hp : provider { body := testMessage, «from» := tw, «to» := t } =
      ProviderOutcome.ok ⟨sid, st⟩) :
    (testSms tw provider ⟨some t⟩).calls =
      [{ body := testMessage, «from» := tw, «to» := t }] ∧
    (testSms tw provider ⟨some t⟩).status = 200 ∧
    (testSms tw provider ⟨some t⟩).body =
      [("success", JsonVal.bool true),
       ("messageSid", JsonVal.str sid),
       ("message", JsonVal.str "Test SMS sent successfully")] ∧
    ∀ provider2 : MessageCreateArgs → ProviderOutcome,
      (testSms tw provider2 ⟨none⟩).status = 400 ∧
      (testSms tw provider2 ⟨none⟩).calls = [] := by
  have hok : testSms tw provider ⟨some t⟩ =
      { status := 200
        body := [("success", JsonVal.bool true),
                 ("messageSid", JsonVal.str sid),
                 ("message", JsonVal.str "Test SMS sent successfully")]
        calls := [{ body := testMessage, «from» := tw, «to» := t }] } := by
    unfold testSms
    simp [jsFalsyStr, isEmpty_false_of_ne t ht, hp]
  rw [hok]
  exact ⟨rfl, rfl, rfl, fun provider2 => ⟨rfl, rfl⟩⟩

/-- Witness for C7: a 10-digit destination is handed to the provider
without the country-code prefix the emergency endpoint would add. -/
theorem c7_test_sms_passthrough_witness :
    (testSms "+15550006666" (fun _ => ProviderOutcome.ok ⟨"SM124", "queued"⟩)
        ⟨some "5551234567"⟩).calls =
      [{ body := testMessage, «from» := "+15550006666", «to» := "5551234567" }] ∧
    (testSms "+15550006666" (fun _ => ProviderOutcome.ok ⟨"SM124", "queued"⟩)
        ⟨some "5551234567"⟩).status = 200 ∧
    (testSms "+15550006666" (fun _ => ProviderOutcome.ok ⟨"SM124", "queued"⟩)
        ⟨some "5551234567"⟩).body =
      [("success", JsonVal.bool true),
       ("messageSid", JsonVal.str "SM124"),
       ("message", JsonVal.str "Test SMS sent successfully")] ∧
    (testSms "+15550006666" (fun _ => ProviderOutcome.ok ⟨"SM124", "queued"⟩)
        ⟨none⟩).status = 400 := by
  have h := c7_test_sms_passthrough "+15550006666" "5551234567" "SM124"
    "queued" (by decide) (fun _ => ProviderOutcome.ok ⟨"SM124", "queued"⟩) rfl
  exact ⟨h.1, h.2.1, h.2.2.1,
    (h.2.2.2 (fun _ => ProviderOutcome.ok ⟨"SM124", "queued"⟩)).1⟩

/-- C8: every emergency-send request that passes validation issues exactly
one outbound provider call, whose body is the request message, whose
sender is the configured number, and whose destination is the normalized
number — whatever the provider then does. -/
theorem c8_single_provider_call (tw now t m : String)
    (cn : Option String) (hl : Option Bool) (ht : t ≠ "") (hm : m ≠ "")
    (provider : MessageCreateArgs → ProviderOutcome) :
    (sendEmergencySms tw provider now ⟨some t, some m, cn, hl⟩).calls =
      [{ body := m, «from» := tw, «to» := cleanPhoneNumber t }] :=
  sendEmergencySms_calls_eq tw now t m cn hl
    (isEmpty_false_of_ne t ht) (isEmpty_false_of_ne m hm) provider

/-- Witness for C8 at a concrete request and a provider that fails: the
single call still carries message, sender and normalized destination. -/
theorem c8_single_provider_call_witness :
    (sendEmergencySms "+15550006666"
        (fun _ => ProviderOutcome.err ⟨"Invalid phone number", some 21211⟩)
        "2026-01-01T00:00:00.000Z"
        ⟨some "(555) 123-4567", some "help me", some "Ana", some true⟩).calls =
      [{ body := "help me", «from» := "+15550006666", «to» := "+15551234567" }] := by
  have h := c8_single_provider_call "+15550006666" "2026-01-01T00:00:00.000Z"
    "(555) 123-4567" "help me" (some "Ana") (some true) (by decide) (by decide)
    (fun _ => ProviderOutcome.err ⟨"Invalid phone number", some 21211⟩)
  rw [h]
  decide

/-- C9: every normalized number starts with a plus sign and all following
characters are digits; the all-letters input abc (non-empty, so it passes
validation) normalizes to the bare plus sign and is passed to the provider
in that form. -/
theorem c9_normalized_shape :
    (∀ s : String, (cleanPhoneNumber s).data.head? = some '+' ∧
      ∀ c ∈ (cleanPhoneNumber s).data.tail, c.isDigit) ∧
    cleanPhoneNumber "abc" = "+" ∧
    (∀ (tw now : String) (provider : MessageCreateArgs → ProviderOutcome),
      (sendEmergencySms tw provider now
          ⟨some "abc", some "help", none, none⟩).calls.map
        MessageCreateArgs.«to» = ["+"]) := by
  refine ⟨fun s => ?_, by decide, fun tw now provider => ?_⟩
  · by_cases h : (stripNonDigits s).length = 10
    · rw [cleanPhoneNumber_ten s h]
      have hd : ("+1" ++ stripNonDigits s).data =
          '+' :: '1' :: (stripNonDigits s).data := rfl
      refine ⟨by rw [hd]; rfl, ?_⟩
      intro c hc
      rw [hd] at hc
      rcases List.mem_cons.mp hc with hc1 | hc2
      · subst hc1; decide
      · exact stripNonDigits_all_digits s c hc2
    · rw [cleanPhoneNumber_non_ten s h]
      have hd : ("+" ++ stripNonDigits s).data =
          '+' :: (stripNonDigits s).data := rfl
      refine ⟨by rw [hd]; rfl, ?_⟩
      intro c hc
      rw [hd] at hc
      exact stripNonDigits_all_digits s c hc
  · rw [sendEmergencySms_calls_eq tw now "abc" "help" none none
      (by decide) (by decide) provider]
    have : cleanPhoneNumber "abc" = "+" := by decide
    simp [this]

/-- C10: a request rejected by validation on either send endpoint gets the
400 response and causes no outbound provider call. -/
theorem c10_no_call_on_rejected_request (tw now : String)
    (provider : MessageCreateArgs → ProviderOutcome)
    (ereq : EmergencyRequest) (treq : TestRequest)
    (he : jsFalsyStr ereq.«to» = true ∨ jsFalsyStr ereq.message = true)
    (htr : jsFalsyStr treq.«to» = true) :
    ((sendEmergencySms tw provider now ereq).status = 400 ∧
      (sendEmergencySms tw provider now ereq).calls = []) ∧
    ((testSms tw provider treq).status = 400 ∧
      (testSms tw provider treq).calls = []) := by
  have hf : (jsFalsyStr ereq.«to» || jsFalsyStr ereq.message) = true := by
    rcases he with h | h
    · rw [h]; rfl
    · rw [h]; exact Bool.or_true _
  rw [sendEmergencySms_invalid tw now provider ereq hf]
  refine ⟨⟨rfl, rfl⟩, ?_⟩
  unfold testSms
  simp [htr]

/-- Witness for C10: an empty-string destination on the emergency endpoint
and an absent destination on the test endpoint are both rejected with no
provider call. -/
theorem c10_no_call_on_rejected_request_witness :
    ((sendEmergencySms "+15550006666"
        (fun _ => ProviderOutcome.ok ⟨"SM125", "queued"⟩)
        "2026-01-01T00:00:00.000Z"
        ⟨some "", some "help", none, none⟩).status = 400 ∧
      (sendEmergencySms "+15550006666"
        (fun _ => ProviderOutcome.ok ⟨"SM125", "queued"⟩)
        "2026-01-01T00:00:00.000Z"
        ⟨some "", some "help", none, none⟩).calls = []) ∧
    ((testSms "+15550006666" (fun _ => ProviderOutcome.ok ⟨"SM125", "queued"⟩)
        ⟨none⟩).status = 400 ∧
      (testSms "+15550006666" (fun _ => ProviderOutcome.ok ⟨"SM125", "queued"⟩)
        ⟨none⟩).calls = []) :=
  c10_no_call_on_rejected_request "+15550006666" "2026-01-01T00:00:00.000Z"
    (fun _ => ProviderOutcome.ok ⟨"SM125", "queued"⟩)
    ⟨some "", some "help", none, none⟩ ⟨none⟩ (Or.inl (by decide)) rfl

end LunaLock
